import Mathlib

/-!
# Patent Citation Dashboard — verification of the core data transforms

Shallow embedding of `patent_dashboard_dash.py`.  A pandas `DataFrame` of
per-company, per-cited-year records is modelled as a `Frame`: a list of
`Record`s plus the list of per-calendar-year citation columns present in the
table (`yearCols`); a record's value in a per-year column is
`perYear : Int → Option Nat` (`none` models a missing/NaN cell, which pandas
`.sum()` skips, i.e. treats as zero).  The five core functions of the source
(`get_company_list`, `create_citations_to_year_chart`, `get_patents_in_year`,
`create_patents_timeline`, `create_citations_timeline`) and the Dash callback
`update_dashboard` are translated below; plotly figures are modelled by the
list of their traces (series name plus ordered (year, value) points), which is
the only content the core computes.
-/

namespace PatentDashboard

/-- One row of the consolidated CSV. -/
structure Record where
  assignee_id : String
  raw_assignee_organization : String
  cited_year : Int
  patents_assigned : Nat
  total_citations : Nat
  perYear : Int → Option Nat

/-- The loaded table: the per-calendar-year columns it carries, and its rows. -/
structure Frame where
  yearCols : List Int
  rows : List Record

/-- A chart point: an x-axis year and a summed y-axis value. -/
structure Point where
  year : Int
  value : Nat
deriving DecidableEq

/-- One plotly trace: the series name and its ordered points. -/
structure Trace where
  name : String
  points : List Point
deriving DecidableEq

/-- One summary entry produced by `get_patents_in_year`. -/
structure PatentsInfo where
  company : String
  patents : Nat
deriving DecidableEq

/-- First-occurrence-preserving deduplication, the semantics of pandas
`Series.unique()` used by every `for assignee_id in ... .unique()` loop. -/
def firstUniques : List String → List String
  | [] => []
  | x :: xs => x :: (firstUniques xs).filter (fun z => !(z == x))

/-- `df_companies['assignee_id'].unique()`. -/
def uniqueIds (rows : List Record) : List String :=
  firstUniques (rows.map Record.assignee_id)

/-- `get_company_data`: `df[df['assignee_id'] == assignee_id]`. -/
def get_company_data (f : Frame) (aid : String) : List Record :=
  f.rows.filter (fun r => r.assignee_id == aid)

/-- `company_data['raw_assignee_organization'].iloc[0]` (the loops only
evaluate this when the company has at least one row). -/
def firstOrgOf (f : Frame) (aid : String) : String :=
  ((get_company_data f aid).head?.map Record.raw_assignee_organization).getD ""

/-- `[year for year in range(selected_year + 1, 2026)]`: the candidate
subsequent years, from `y + 1` up to the hard-coded horizon 2025. -/
def yearRange (y : Int) : List Int :=
  (List.range (2025 - y).toNat).map (fun i : Nat => y + 1 + (i : Int))

/-- `year_data[year_col].sum()`: NaN cells are skipped (counted as zero). -/
def sumPerYear (rows : List Record) (z : Int) : Nat :=
  (rows.map (fun r => (r.perYear z).getD 0)).sum

/-- The `citations_by_year` list built for one company inside
`create_citations_to_year_chart`: one point per candidate year whose column
exists in the table (`if year_col in year_data.columns`). -/
def company_points (f : Frame) (y : Int) (aid : String) : List Point :=
  let year_data := (get_company_data f aid).filter (fun r => r.cited_year == y)
  ((yearRange y).filter (fun z => decide (z ∈ f.yearCols))).map
    (fun z => ⟨z, sumPerYear year_data z⟩)

/-- One loop iteration of `create_citations_to_year_chart`: the company is
skipped when it has no row at the selected year (`if not year_data.empty`) or
when no points were collected (`if citations_by_year`); otherwise a trace named
by the raw organization name is added. -/
def company_trace (f : Frame) (y : Int) (aid : String) : Option Trace :=
  let year_data := (get_company_data f aid).filter (fun r => r.cited_year == y)
  if year_data.isEmpty then none
  else if (company_points f y aid).isEmpty then none
  else some ⟨firstOrgOf f aid, company_points f y aid⟩

/-- `create_citations_to_year_chart`, as the list of traces of the figure. -/
def create_citations_to_year_chart (f : Frame) (y : Int) : List Trace :=
  (uniqueIds f.rows).filterMap (company_trace f y)

/-- `get_patents_in_year`: per company, the summed `patents_assigned` over its
rows at the selected year, or 0 when it has no such row. -/
def get_patents_in_year (f : Frame) (y : Int) : List PatentsInfo :=
  (uniqueIds f.rows).map (fun aid =>
    let year_data := (get_company_data f aid).filter (fun r => r.cited_year == y)
    if year_data.isEmpty then ⟨firstOrgOf f aid, 0⟩
    else ⟨firstOrgOf f aid, (year_data.map Record.patents_assigned).sum⟩)

/-- Insertion into a strictly-sorted list of years, dropping duplicates: the
building block used to model `groupby('cited_year')` (whose keys come out
sorted and distinct) followed by `sort_values('cited_year')`. -/
def insertY (y : Int) : List Int → List Int
  | [] => [y]
  | a :: t => if y < a then y :: a :: t else if y = a then a :: t else a :: insertY y t

/-- The sorted distinct `cited_year` values of a row set. -/
def yearsOf (rows : List Record) : List Int :=
  rows.foldr (fun r acc => insertY r.cited_year acc) []

/-- `company_data.groupby('cited_year')[fld].sum().reset_index()` followed by
`sort_values('cited_year')`: one point per distinct year, values summed. -/
def timeline_points (rows : List Record) (fld : Record → Nat) : List Point :=
  (yearsOf rows).map (fun z =>
    ⟨z, ((rows.filter (fun r => r.cited_year == z)).map fld).sum⟩)

/-- One trace of `create_patents_timeline`. -/
def company_patents_timeline (f : Frame) (aid : String) : Trace :=
  ⟨firstOrgOf f aid, timeline_points (get_company_data f aid) Record.patents_assigned⟩

/-- `create_patents_timeline`, as the list of traces of the figure. -/
def create_patents_timeline (f : Frame) : List Trace :=
  (uniqueIds f.rows).map (company_patents_timeline f)

/-- One trace of `create_citations_timeline`. -/
def company_citations_timeline (f : Frame) (aid : String) : Trace :=
  ⟨firstOrgOf f aid, timeline_points (get_company_data f aid) Record.total_citations⟩

/-- `create_citations_timeline`, as the list of traces of the figure. -/
def create_citations_timeline (f : Frame) : List Trace :=
  (uniqueIds f.rows).map (company_citations_timeline f)

/-- Lexicographic order on the `(assignee_id, raw_assignee_organization)`
group keys: pandas `groupby` emits its groups with keys sorted ascending. -/
def keyLt (p q : String × String) : Prop :=
  p.1 < q.1 ∨ (p.1 = q.1 ∧ p.2 < q.2)

instance (p q : String × String) : Decidable (keyLt p q) := by
  unfold keyLt; infer_instance

/-- Insertion into a `keyLt`-sorted duplicate-free list of group keys. -/
def insertKey (p : String × String) :
    List (String × String) → List (String × String)
  | [] => [p]
  | q :: t => if keyLt p q then p :: q :: t else if p = q then q :: t else q :: insertKey p t

/-- The group keys of `df.groupby(['assignee_id', 'raw_assignee_organization'])`:
the distinct (id, organization) pairs, sorted ascending by key. -/
def companyKeys (rows : List Record) : List (String × String) :=
  rows.foldr (fun r acc => insertKey (r.assignee_id, r.raw_assignee_organization) acc) []

/-- Comparison of catalog entries by their `display_name` (second component),
the key of the final `sort_values('display_name')`. -/
def dispLe (p q : String × String) : Prop := p.2 ≤ q.2

instance : DecidableRel dispLe := fun p q => inferInstanceAs (Decidable (p.2 ≤ q.2))

instance : IsTotal (String × String) dispLe := ⟨fun p q => le_total p.2 q.2⟩

instance : IsTrans (String × String) dispLe := ⟨fun _ _ _ h1 h2 => le_trans h1 h2⟩

/-- `get_company_list`: group by (id, organization), build
`display_name = org + ' (' + id[:8] + '...)'`, keep the
`(assignee_id, display_name)` columns and sort by `display_name` ascending. -/
def get_company_list (f : Frame) : List (String × String) :=
  List.insertionSort dispLe
    ((companyKeys f.rows).map
      (fun p => (p.1, p.2 ++ " (" ++ p.1.take 8 ++ "...)")))

/-- The summary output slot of the callback: either the literal prompt string
of the awaiting-input branch, or the rendered per-company list. -/
inductive SummaryOut where
  | prompt (message : String)
  | panel (year : Int) (items : List PatentsInfo)
deriving DecidableEq

/-- The tab-content output slot of the callback: empty, or a figure. -/
inductive ContentOut where
  | empty
  | graph (traces : List Trace)
deriving DecidableEq

/-- `df[df['assignee_id'].isin(selected_companies)]`. -/
def restrictFrame (f : Frame) (ids : List String) : Frame :=
  ⟨f.yearCols, f.rows.filter (fun r => decide (r.assignee_id ∈ ids))⟩

/-- Python truthiness of the year-dropdown value: `not selected_year` holds
for `None` and for the integer 0. -/
def yearFalsy : Option Int → Bool
  | none => true
  | some y => y == 0

/-- The Dash callback `update_dashboard`, returning the pair
`(summary-text children, tab-content children)`. -/
def update_dashboard (f : Frame) (selected_companies : List String)
    (selected_year : Option Int) (active_tab : String) : SummaryOut × ContentOut :=
  if selected_companies.isEmpty || yearFalsy selected_year then
    (SummaryOut.prompt "Please select companies and a year to analyze.", ContentOut.empty)
  else
    let y := selected_year.getD 0
    let companies_data := restrictFrame f selected_companies
    let summary := SummaryOut.panel y (get_patents_in_year companies_data y)
    if active_tab = "citations-to-year" then
      (summary, ContentOut.graph (create_citations_to_year_chart companies_data y))
    else if active_tab = "patents-timeline" then
      (summary, ContentOut.graph (create_patents_timeline companies_data))
    else if active_tab = "citations-timeline" then
      (summary, ContentOut.graph (create_citations_timeline companies_data))
    else (summary, ContentOut.empty)

/-- The module-level `try/except FileNotFoundError` startup: `none` models the
load failing (`DataUnavailable`), in which case `df = pd.DataFrame()`. -/
def startupFrame (load : Option Frame) : Frame :=
  match load with
  | some df => df
  | none => ⟨[], []⟩

/-- `companies`: the catalog on success, `pd.DataFrame()` (no rows) on failure. -/
def startupCompanies (load : Option Frame) : List (String × String) :=
  match load with
  | some df => get_company_list df
  | none => []

/-- `available_years = sorted(df['cited_year'].unique())`, `[]` on failure. -/
def startupYears (load : Option Frame) : List Int :=
  match load with
  | some df => yearsOf df.rows
  | none => []

/-- The company-dropdown options: one `(label, value)` pair per catalog row. -/
def companyOptions (companies : List (String × String)) : List (String × String) :=
  companies.map (fun p => (p.2, p.1))

/-- The company-dropdown initial value:
`[companies['assignee_id'].iloc[0]] if len(companies) > 0 else []`. -/
def initialCompanyValue (companies : List (String × String)) : List String :=
  match companies with
  | [] => []
  | p :: _ => [p.1]

/-- The year-dropdown options: one `(label, value)` pair per available year. -/
def yearOptions (years : List Int) : List (String × Int) :=
  years.map (fun y => (toString y, y))

/-- The year-dropdown initial value:
`available_years[0] if len(available_years) > 0 else None`. -/
def initialYearValue (years : List Int) : Option Int :=
  years.head?

/-! ### Helper lemmas -/

theorem mem_firstUniques {z : String} :
    ∀ l : List String, z ∈ firstUniques l ↔ z ∈ l := by
  intro l
  induction l with
  | nil => simp [firstUniques]
  | cons x xs ih =>
    rw [firstUniques]
    by_cases hzx : z = x
    · subst hzx; simp
    · simp only [List.mem_cons, List.mem_filter, ih, hzx, false_or]
      constructor
      · exact fun h => h.1
      · exact fun h => ⟨h, by simpa using hzx⟩

theorem mem_uniqueIds {rows : List Record} {aid : String} :
    aid ∈ uniqueIds rows ↔ ∃ r ∈ rows, r.assignee_id = aid := by
  unfold uniqueIds
  rw [mem_firstUniques]
  simp [List.mem_map, eq_comm]

/-- Splitting a mapped sum along a Boolean filter. -/
theorem sum_map_filter_split {α : Type} (q : α → Bool) (fld : α → Nat) :
    ∀ l : List α,
      ((l.filter q).map fld).sum + ((l.filter (fun a => !(q a))).map fld).sum
        = (l.map fld).sum := by
  intro l
  induction l with
  | nil => simp
  | cons a t ih =>
    cases h : q a <;> simp [List.filter_cons, h] <;> omega

theorem mem_insertY {z y : Int} : ∀ l : List Int, z ∈ insertY y l ↔ z = y ∨ z ∈ l := by
  intro l
  induction l with
  | nil => simp [insertY]
  | cons a t ih =>
    rw [insertY]
    split
    · simp
    · split
      · rename_i h1 h2
        subst h2
        simp [or_comm]
      · simp only [List.mem_cons, ih]
        tauto

theorem pairwise_insertY {y : Int} :
    ∀ {l : List Int}, l.Pairwise (· < ·) → (insertY y l).Pairwise (· < ·) := by
  intro l
  induction l with
  | nil => simp [insertY]
  | cons a t ih =>
    intro hp
    rw [List.pairwise_cons] at hp
    rw [insertY]
    split
    · rename_i h1
      refine List.pairwise_cons.2 ⟨?_, List.pairwise_cons.2 ⟨hp.1, hp.2⟩⟩
      intro z hz
      rcases List.mem_cons.1 hz with h | h
      · exact h ▸ h1
      · exact lt_trans h1 (hp.1 z h)
    · split
      · exact List.pairwise_cons.2 ⟨hp.1, hp.2⟩
      · rename_i h1 h2
        have hay : a < y := lt_of_le_of_ne (not_lt.1 h1) (fun h => h2 h.symm)
        refine List.pairwise_cons.2 ⟨?_, ih hp.2⟩
        intro z hz
        rcases (mem_insertY _).1 hz with h | h
        · exact h ▸ hay
        · exact hp.1 z h

theorem mem_yearsOf {rows : List Record} {z : Int} :
    z ∈ yearsOf rows ↔ ∃ r ∈ rows, r.cited_year = z := by
  unfold yearsOf
  induction rows with
  | nil => simp
  | cons a t ih =>
    simp only [List.foldr_cons, mem_insertY, ih, List.mem_cons]
    constructor
    · rintro (h | ⟨r, hr, hz⟩)
      · exact ⟨a, Or.inl rfl, h.symm⟩
      · exact ⟨r, Or.inr hr, hz⟩
    · rintro ⟨r, hr | hr, hz⟩
      · exact Or.inl (hr ▸ hz.symm)
      · exact Or.inr ⟨r, hr, hz⟩

theorem pairwise_yearsOf {rows : List Record} : (yearsOf rows).Pairwise (· < ·) := by
  unfold yearsOf
  induction rows with
  | nil => simp
  | cons a t ih => exact pairwise_insertY ih

theorem nodup_yearsOf {rows : List Record} : (yearsOf rows).Nodup :=
  pairwise_yearsOf.imp ne_of_lt

/-- Summing per-year group sums over any duplicate-free cover of the years
occurring in `rows` recovers the total sum. -/
theorem sum_over_year_cover (fld : Record → Nat) :
    ∀ (ys : List Int) (rows : List Record), ys.Nodup →
      (∀ r ∈ rows, r.cited_year ∈ ys) →
      (ys.map (fun z => ((rows.filter (fun r => r.cited_year == z)).map fld).sum)).sum
        = (rows.map fld).sum := by
  intro ys
  induction ys with
  | nil =>
    intro rows _ hcov
    have : rows = [] := by
      cases rows with
      | nil => rfl
      | cons r t => exact absurd (hcov r (List.mem_cons_self r t)) (List.not_mem_nil _)
    simp [this]
  | cons y ys ih =>
    intro rows hnd hcov
    rw [List.nodup_cons] at hnd
    set rows' := rows.filter (fun r => !(r.cited_year == y)) with hrows'
    have hcov' : ∀ r ∈ rows', r.cited_year ∈ ys := by
      intro r hr
      rw [hrows', List.mem_filter] at hr
      have h2 : r.cited_year ≠ y := by simpa using hr.2
      rcases List.mem_cons.1 (hcov r hr.1) with h | h
      · exact absurd h h2
      · exact h
    have hsame : ∀ z ∈ ys,
        (rows.filter (fun r => r.cited_year == z)) = (rows'.filter (fun r => r.cited_year == z)) := by
      intro z hz
      have hzy : z ≠ y := fun hzy => hnd.1 (hzy ▸ hz)
      rw [hrows', List.filter_filter]
      apply List.filter_congr
      intro r _
      by_cases h : r.cited_year = z
      · simp [h, hzy]
      · simp [h]
    have hmap :
        ys.map (fun z => ((rows.filter (fun r => r.cited_year == z)).map fld).sum)
          = ys.map (fun z => ((rows'.filter (fun r => r.cited_year == z)).map fld).sum) :=
      List.map_congr_left (fun z hz => by rw [hsame z hz])
    simp only [List.map_cons, List.sum_cons]
    rw [hmap, ih rows' hnd.2 hcov']
    rw [hrows']
    exact sum_map_filter_split (fun r => r.cited_year == y) fld rows

/-- The total of a timeline series equals the total of the underlying field. -/
theorem sum_timeline_points (rows : List Record) (fld : Record → Nat) :
    ((timeline_points rows fld).map Point.value).sum = (rows.map fld).sum := by
  unfold timeline_points
  rw [List.map_map]
  exact sum_over_year_cover fld (yearsOf rows) rows nodup_yearsOf
    (fun r hr => mem_yearsOf.2 ⟨r, hr, rfl⟩)

/-- The years of a timeline series are the sorted distinct years. -/
theorem timeline_points_years (rows : List Record) (fld : Record → Nat) :
    (timeline_points rows fld).map Point.year = yearsOf rows := by
  unfold timeline_points
  rw [List.map_map]
  exact List.map_id'' (fun x => rfl) _

theorem mem_insertKey {p q : String × String} :
    ∀ l : List (String × String), q ∈ insertKey p l ↔ q = p ∨ q ∈ l := by
  intro l
  induction l with
  | nil => simp [insertKey]
  | cons a t ih =>
    rw [insertKey]
    split
    · simp
    · split
      · rename_i h1 h2
        subst h2
        simp [or_comm]
      · simp only [List.mem_cons, ih]
        tauto

theorem mem_companyKeys {rows : List Record} {p : String × String} :
    p ∈ companyKeys rows ↔ ∃ r ∈ rows, r.assignee_id = p.1 ∧ r.raw_assignee_organization = p.2 := by
  unfold companyKeys
  induction rows with
  | nil => simp
  | cons a t ih =>
    simp only [List.foldr_cons, mem_insertKey, ih, List.mem_cons]
    constructor
    · rintro (h | ⟨r, hr, h1, h2⟩)
      · exact ⟨a, Or.inl rfl, by simp [h]⟩
      · exact ⟨r, Or.inr hr, h1, h2⟩
    · rintro ⟨r, hr | hr, h1, h2⟩
      · subst hr
        exact Or.inl (by rw [h1, h2])
      · exact Or.inr ⟨r, hr, h1, h2⟩

theorem mem_yearRange {y z : Int} : z ∈ yearRange y ↔ y < z ∧ z ≤ 2025 := by
  unfold yearRange
  simp only [List.mem_map, List.mem_range]
  constructor
  · rintro ⟨i, hi, rfl⟩
    omega
  · rintro ⟨h1, h2⟩
    exact ⟨(z - y - 1).toNat, by omega, by omega⟩

theorem length_yearRange {y : Int} : (yearRange y).length = (2025 - y).toNat := by
  unfold yearRange
  rw [List.length_map, List.length_range]

theorem pairwise_yearRange {y : Int} : (yearRange y).Pairwise (· < ·) := by
  unfold yearRange
  rw [List.pairwise_map]
  exact (List.pairwise_lt_range _).imp (fun {a b} h => by omega)

theorem mem_get_company_data {f : Frame} {aid : String} {r : Record} :
    r ∈ get_company_data f aid ↔ r ∈ f.rows ∧ r.assignee_id = aid := by
  unfold get_company_data
  simp [List.mem_filter]

/-! ### Example data (for witnesses and counterexamples)

The spec's own example scenario (§8): one company ("Acme", id
"AAAAAAAA1234") with a 2015 record carrying subsequent-year citations for
2016 and 2017, and a 2016 record, in a table whose per-year columns are
2016 and 2017. -/

def exRec1 : Record :=
  ⟨"AAAAAAAA1234", "Acme", 2015, 10, 5,
    fun z => if z = 2016 then some 3 else if z = 2017 then some 7 else none⟩

def exRec2 : Record :=
  ⟨"AAAAAAAA1234", "Acme", 2016, 8, 2, fun _ => none⟩

def exFrame : Frame := ⟨[2016, 2017], [exRec1, exRec2]⟩

/-- A table whose 2024 column is absent (only 2025 exists), with a company
holding a record at cited year 2023. -/
def gapFrame : Frame :=
  ⟨[2025], [⟨"a1", "Acme", 2023, 1, 1, fun z => if z = 2025 then some 4 else none⟩]⟩

/-- A table with columns 2024 and 2025 and a company record at cited year
2023 with citation counts for both subsequent years. -/
def wFrame : Frame :=
  ⟨[2024, 2025],
    [⟨"a1", "Acme", 2023, 1, 1,
      fun z => if z = 2024 then some 3 else if z = 2025 then some 7 else none⟩]⟩

/-- A table whose only record sits at the last tracked year, 2025. -/
def lastFrame : Frame := ⟨[2024, 2025], [⟨"a1", "Acme", 2025, 2, 9, fun _ => none⟩]⟩

/-! ### Claims -/

/-- C1, counterexample: the claim asserts that a zero point is emitted for
every year in (Y, horizon] whose per-year field is missing, with no gaps and
exactly (horizon − Y) points.  On `gapFrame` (2024 column absent) with
Y = 2023 the code skips the missing 2024 column instead of zero-filling it:
the emitted series has 1 point, not 2025 − 2023 = 2, and its year list
[2025] has a gap. -/
theorem citations_chart_missing_column_gap :
    ¬ (∀ t ∈ create_citations_to_year_chart gapFrame 2023,
        t.points.length = ((2025 : Int) - 2023).toNat ∧
        t.points.map Point.year = yearRange 2023) := by
  decide

/-- C1, amended: for every reference year Y < 2025 (the code's fixed horizon)
such that every year in (Y, 2025] is present among the table's per-year
columns, each series emitted by `create_citations_to_year_chart` has exactly
(2025 − Y) points, with years strictly increasing and contiguous from Y+1 to
2025 (`yearRange Y`); a point is included for every such year even when its
summed value is zero or all its cells are missing.  (Years whose column is
absent from the table would be skipped, not zero-filled — hence the column
hypothesis.) -/
theorem citations_chart_contiguous (f : Frame) (y : Int) (_hy : y < 2025)
    (hcols : ∀ z : Int, y < z → z ≤ 2025 → z ∈ f.yearCols) :
    ∀ t ∈ create_citations_to_year_chart f y,
      t.points.length = (2025 - y).toNat ∧
      t.points.map Point.year = yearRange y ∧
      (t.points.map Point.year).Pairwise (· < ·) := by
  intro t ht
  obtain ⟨aid, -, htr⟩ := List.mem_filterMap.1 ht
  simp only [company_trace] at htr
  split at htr
  · exact Option.noConfusion htr
  · split at htr
    · exact Option.noConfusion htr
    · cases Option.some.inj htr
      have hfil : (yearRange y).filter (fun z => decide (z ∈ f.yearCols)) = yearRange y := by
        apply List.filter_eq_self.2
        intro z hz
        have h := mem_yearRange.1 hz
        simpa using hcols z h.1 h.2
      have hyears :
          (company_points f y aid).map Point.year = yearRange y := by
        unfold company_points
        rw [List.map_map, hfil]
        exact List.map_id'' (fun x => rfl) _
      refine ⟨?_, hyears, hyears ▸ pairwise_yearRange⟩
      have hlen := congrArg List.length hyears
      rwa [List.length_map, length_yearRange] at hlen

/-- Witness for C1's amended theorem: on `wFrame` (columns 2024, 2025) at
Y = 2023, the emitted Acme series is [(2024, 3), (2025, 7)]. -/
theorem citations_chart_contiguous_witness :
    (Trace.mk "Acme" [Point.mk 2024 3, Point.mk 2025 7]).points.length
        = ((2025 : Int) - 2023).toNat ∧
    (Trace.mk "Acme" [Point.mk 2024 3, Point.mk 2025 7]).points.map Point.year
        = yearRange 2023 ∧
    ((Trace.mk "Acme" [Point.mk 2024 3, Point.mk 2025 7]).points.map Point.year).Pairwise
        (· < ·) :=
  citations_chart_contiguous wFrame 2023 (by decide)
    (fun z h1 h2 => by
      show z ∈ [(2024 : Int), 2025]
      simp only [List.mem_cons, List.mem_singleton]
      omega)
    (Trace.mk "Acme" [Point.mk 2024 3, Point.mk 2025 7]) (by decide)

/-- C2: a company present in the restricted table but with no record at the
reference year Y contributes no series to the citations-to-year chart
(`company_trace` yields `none`, so `create_citations_to_year_chart`'s
`filterMap` drops it), while `get_patents_in_year` still lists it with a
patents count of exactly 0. -/
theorem citations_omit_summary_zero (f : Frame) (y : Int) (aid : String)
    (hmem : ∃ r ∈ f.rows, r.assignee_id = aid)
    (hnone : ∀ r ∈ f.rows, r.assignee_id = aid → r.cited_year ≠ y) :
    company_trace f y aid = none ∧
    PatentsInfo.mk (firstOrgOf f aid) 0 ∈ get_patents_in_year f y := by
  have hyd : (get_company_data f aid).filter (fun r => r.cited_year == y) = [] := by
    rw [List.filter_eq_nil_iff]
    intro r hr
    have h := mem_get_company_data.1 hr
    simpa using hnone r h.1 h.2
  constructor
  · simp only [company_trace, hyd]
    rfl
  · unfold get_patents_in_year
    refine List.mem_map.2 ⟨aid, mem_uniqueIds.2 hmem, ?_⟩
    simp [hyd]

/-- Witness for C2: on the spec's example table, Acme has no record at 2017;
the chart omits it while the summary lists ("Acme", 0). -/
theorem citations_omit_summary_zero_witness :
    company_trace exFrame 2017 "AAAAAAAA1234" = none ∧
    PatentsInfo.mk (firstOrgOf exFrame "AAAAAAAA1234") 0 ∈ get_patents_in_year exFrame 2017 :=
  citations_omit_summary_zero exFrame 2017 "AAAAAAAA1234" (by decide) (by decide)

/-- The Summary Computer as §4.6 words it: one entry per company in the input
iteration order, whose value is the sum of `patents_assigned` over the
company's records with `cited_year == Y` (an empty sum when no such records
exist). -/
def summary_spec (f : Frame) (y : Int) : List PatentsInfo :=
  (uniqueIds f.rows).map (fun aid =>
    ⟨firstOrgOf f aid,
      ((f.rows.filter (fun r => r.assignee_id == aid && r.cited_year == y)).map
        Record.patents_assigned).sum⟩)

/-- C3: `get_patents_in_year` computes exactly the §4.6 summary: one entry per
company, in the companies' iteration order, valued by the sum of
`patents_assigned` over the company's records at year Y (zero when none). -/
theorem get_patents_in_year_eq_spec (f : Frame) (y : Int) :
    get_patents_in_year f y = summary_spec f y := by
  unfold get_patents_in_year summary_spec
  apply List.map_congr_left
  intro aid _
  have hsplit :
      f.rows.filter (fun r => r.assignee_id == aid && r.cited_year == y)
        = (get_company_data f aid).filter (fun r => r.cited_year == y) := by
    unfold get_company_data
    rw [List.filter_filter]
    apply List.filter_congr
    intro r _
    exact Bool.and_comm _ _
  rw [hsplit]
  by_cases h : ((get_company_data f aid).filter (fun r => r.cited_year == y)).isEmpty
  · have hnil : (get_company_data f aid).filter (fun r => r.cited_year == y) = [] :=
      List.isEmpty_iff.1 h
    simp [h, hnil]
  · simp [h]

/-- C4: for every company, the total of its patents-timeline series equals the
total `patents_assigned` over its records, the total of its citations-timeline
series equals the total `total_citations` over its records, and in both series
the years are strictly increasing (duplicate input years merge into a single
summed point).  `create_patents_timeline` / `create_citations_timeline` emit
exactly these series, one per company. -/
theorem timeline_totals_and_increasing (f : Frame) (aid : String) :
    ((company_patents_timeline f aid).points.map Point.value).sum
        = ((get_company_data f aid).map Record.patents_assigned).sum ∧
    ((company_patents_timeline f aid).points.map Point.year).Pairwise (· < ·) ∧
    ((company_citations_timeline f aid).points.map Point.value).sum
        = ((get_company_data f aid).map Record.total_citations).sum ∧
    ((company_citations_timeline f aid).points.map Point.year).Pairwise (· < ·) := by
  refine ⟨sum_timeline_points _ _, ?_, sum_timeline_points _ _, ?_⟩
  · show ((timeline_points (get_company_data f aid) Record.patents_assigned).map
        Point.year).Pairwise (· < ·)
    rw [timeline_points_years]
    exact pairwise_yearsOf
  · show ((timeline_points (get_company_data f aid) Record.total_citations).map
        Point.year).Pairwise (· < ·)
    rw [timeline_points_years]
    exact pairwise_yearsOf

/-- C5: `get_company_list` returns (company_id, display_name) pairs sorted
ascending by display_name (case-sensitive lexicographic `String` order), and
every display_name is the record's organization name followed by the first 8
characters of the company id and an ellipsis marker. -/
theorem company_list_sorted_and_labels (f : Frame) :
    List.Sorted dispLe (get_company_list f) ∧
    ∀ p ∈ get_company_list f, ∃ r ∈ f.rows,
      p.1 = r.assignee_id ∧
      p.2 = r.raw_assignee_organization ++ " (" ++ r.assignee_id.take 8 ++ "...)" := by
  constructor
  · exact List.sorted_insertionSort dispLe _
  · intro p hp
    unfold get_company_list at hp
    have hp' := (List.perm_insertionSort dispLe _).mem_iff.1 hp
    obtain ⟨q, hq, rfl⟩ := List.mem_map.1 hp'
    obtain ⟨r, hr, h1, h2⟩ := mem_companyKeys.1 hq
    exact ⟨r, hr, h1.symm, by rw [h1, h2]⟩

/-- Witness for C5: on the one-company table `wFrame` the single catalog
entry is ("a1", "Acme (a1...)"). -/
theorem company_list_sorted_and_labels_witness :
    ∃ r ∈ wFrame.rows,
      (("a1", "Acme (a1...)") : String × String).1 = r.assignee_id ∧
      (("a1", "Acme (a1...)") : String × String).2
        = r.raw_assignee_organization ++ " (" ++ r.assignee_id.take 8 ++ "...)" :=
  (company_list_sorted_and_labels wFrame).2 ("a1", "Acme (a1...)")
    (by decide)

/-- C6: whenever the company selection is empty or the year is unset, the
callback returns the prompt message and empty tab content, with no
aggregation performed (the function is total, so no error is raised). -/
theorem awaiting_input_state (f : Frame) (cs : List String) (yr : Option Int)
    (tab : String) (h : cs = [] ∨ yr = none) :
    update_dashboard f cs yr tab
      = (SummaryOut.prompt "Please select companies and a year to analyze.",
         ContentOut.empty) := by
  unfold update_dashboard
  rcases h with h | h
  · subst h
    simp
  · subst h
    simp [yearFalsy]

/-- Witness for C6: an empty company selection on the example table. -/
theorem awaiting_input_state_witness :
    update_dashboard exFrame [] none "citations-to-year"
      = (SummaryOut.prompt "Please select companies and a year to analyze.",
         ContentOut.empty) :=
  awaiting_input_state exFrame [] none "citations-to-year" (Or.inl rfl)

/-- C7: when the source table cannot be loaded (`load = none`, the
`FileNotFoundError` branch), the program keeps running on an empty table and
empty catalog: both dropdowns get empty option lists and empty initial
values, and every interaction whose selections are drawn from those (empty)
options produces the awaiting-input prompt.  All functions involved are
total, so no crash can occur. -/
theorem data_unavailable_recovery (cs : List String) (yr : Option Int) (tab : String)
    (hcs : ∀ c ∈ cs, c ∈ (companyOptions (startupCompanies none)).map Prod.snd)
    (_hyr : ∀ z : Int, yr = some z → z ∈ startupYears none) :
    startupCompanies none = [] ∧
    startupYears none = [] ∧
    companyOptions (startupCompanies none) = [] ∧
    yearOptions (startupYears none) = [] ∧
    initialCompanyValue (startupCompanies none) = [] ∧
    initialYearValue (startupYears none) = none ∧
    update_dashboard (startupFrame none) cs yr tab
      = (SummaryOut.prompt "Please select companies and a year to analyze.",
         ContentOut.empty) := by
  have hcs0 : cs = [] := by
    cases cs with
    | nil => rfl
    | cons c t =>
      have := hcs c (List.mem_cons_self c t)
      simp [startupCompanies, companyOptions] at this
  subst hcs0
  refine ⟨rfl, rfl, rfl, rfl, rfl, rfl, ?_⟩
  unfold update_dashboard
  simp

/-- Witness for C7: the empty interaction on the failed-load state. -/
theorem data_unavailable_recovery_witness :
    startupCompanies none = [] ∧
    startupYears none = [] ∧
    companyOptions (startupCompanies none) = [] ∧
    yearOptions (startupYears none) = [] ∧
    initialCompanyValue (startupCompanies none) = [] ∧
    initialYearValue (startupYears none) = none ∧
    update_dashboard (startupFrame none) [] none "patents-timeline"
      = (SummaryOut.prompt "Please select companies and a year to analyze.",
         ContentOut.empty) :=
  data_unavailable_recovery [] none "patents-timeline" (by simp) (by simp)

/-- C8, counterexample: the claim says every emitted series carries the
Company Catalog's disambiguated display name.  On `wFrame` the catalog's only
display name is "Acme (a1...)", but the patents-timeline trace is named with
the raw organization name "Acme". -/
theorem trace_name_not_catalog_display :
    ¬ (∀ t ∈ create_patents_timeline wFrame,
        ∃ p ∈ get_company_list wFrame, t.name = p.2) := by
  decide

/-- C8, amended: every series emitted by the three view transforms carries
the company's raw organization name (the first-seen
`raw_assignee_organization` of its records), not the catalog's disambiguated
display label. -/
theorem trace_name_is_raw_org (f : Frame) (y : Int) :
    (∀ t ∈ create_citations_to_year_chart f y,
      ∃ aid ∈ uniqueIds f.rows, t.name = firstOrgOf f aid) ∧
    (∀ t ∈ create_patents_timeline f,
      ∃ aid ∈ uniqueIds f.rows, t.name = firstOrgOf f aid) ∧
    (∀ t ∈ create_citations_timeline f,
      ∃ aid ∈ uniqueIds f.rows, t.name = firstOrgOf f aid) := by
  refine ⟨?_, ?_, ?_⟩
  · intro t ht
    obtain ⟨aid, haid, htr⟩ := List.mem_filterMap.1 ht
    refine ⟨aid, haid, ?_⟩
    simp only [company_trace] at htr
    split at htr
    · exact Option.noConfusion htr
    · split at htr
      · exact Option.noConfusion htr
      · cases Option.some.inj htr
        rfl
  · intro t ht
    obtain ⟨aid, haid, rfl⟩ := List.mem_map.1 ht
    exact ⟨aid, haid, rfl⟩
  · intro t ht
    obtain ⟨aid, haid, rfl⟩ := List.mem_map.1 ht
    exact ⟨aid, haid, rfl⟩

/-- Witness for C8's amended theorem: the Acme patents-timeline trace on the
example table is named by the raw organization name. -/
theorem trace_name_is_raw_org_witness :
    ∃ aid ∈ uniqueIds exFrame.rows,
      (Trace.mk "Acme" [Point.mk 2015 10, Point.mk 2016 8]).name = firstOrgOf exFrame aid :=
  (trace_name_is_raw_org exFrame 2015).2.1
    (Trace.mk "Acme" [Point.mk 2015 10, Point.mk 2016 8]) (by decide)

/-- C9: for a company holding records at the reference year Y, when no
per-year column for a year after Y exists in the table (Y is the last tracked
year), the computed citations-to-year series for that company is empty — and
consequently (`if citations_by_year:`) no trace is emitted for it. -/
theorem citations_last_tracked_year_empty (f : Frame) (y : Int) (aid : String)
    (_hrec : ∃ r ∈ f.rows, r.assignee_id = aid ∧ r.cited_year = y)
    (hlast : ∀ z ∈ f.yearCols, z ≤ y) :
    company_points f y aid = [] ∧ company_trace f y aid = none := by
  have hpts : company_points f y aid = [] := by
    unfold company_points
    have hfil : (yearRange y).filter (fun z => decide (z ∈ f.yearCols)) = [] := by
      rw [List.filter_eq_nil_iff]
      intro z hz
      have h := mem_yearRange.1 hz
      simp only [decide_eq_true_eq]
      intro hmem
      exact absurd (hlast z hmem) (by omega)
    simp [hfil]
  refine ⟨hpts, ?_⟩
  simp [company_trace, hpts]

/-- Witness for C9: `lastFrame`'s record sits at 2025, the last tracked
year; its series is empty and no trace is emitted. -/
theorem citations_last_tracked_year_empty_witness :
    company_points lastFrame 2025 "a1" = [] ∧
    company_trace lastFrame 2025 "a1" = none :=
  citations_last_tracked_year_empty lastFrame 2025 "a1" (by decide) (by decide)

/-- C10: a selected company id that occurs in no record of the table is
silently absent from every output: restricting the table to the selection
gives the same frame as if the id had not been selected, so the summary and
all three charts are unchanged, and the id appears in no iteration
(`uniqueIds`) of the restricted table.  In particular the summary's
inclusion-with-zero policy does not apply to it. -/
theorem recordless_company_absent (f : Frame) (cs : List String) (aid : String)
    (y : Int) (_hsel : aid ∈ cs)
    (hno : ∀ r ∈ f.rows, r.assignee_id ≠ aid) :
    aid ∉ uniqueIds (restrictFrame f cs).rows ∧
    restrictFrame f cs = restrictFrame f (cs.filter (fun c => !(c == aid))) ∧
    get_patents_in_year (restrictFrame f cs) y
      = get_patents_in_year (restrictFrame f (cs.filter (fun c => !(c == aid)))) y ∧
    create_citations_to_year_chart (restrictFrame f cs) y
      = create_citations_to_year_chart (restrictFrame f (cs.filter (fun c => !(c == aid)))) y ∧
    create_patents_timeline (restrictFrame f cs)
      = create_patents_timeline (restrictFrame f (cs.filter (fun c => !(c == aid)))) ∧
    create_citations_timeline (restrictFrame f cs)
      = create_citations_timeline (restrictFrame f (cs.filter (fun c => !(c == aid)))) := by
  have hframe :
      restrictFrame f cs = restrictFrame f (cs.filter (fun c => !(c == aid))) := by
    unfold restrictFrame
    congr 1
    apply List.filter_congr
    intro r hr
    have hne : r.assignee_id ≠ aid := hno r hr
    have hiff : r.assignee_id ∈ cs.filter (fun c => !(c == aid)) ↔ r.assignee_id ∈ cs := by
      simp [List.mem_filter, hne]
    exact (decide_eq_decide.2 hiff).symm
  refine ⟨?_, hframe, by rw [hframe], by rw [hframe], by rw [hframe], by rw [hframe]⟩
  intro h
  obtain ⟨r, hr, hid⟩ := mem_uniqueIds.1 h
  have hrf : r ∈ f.rows := by
    have := hr
    unfold restrictFrame at this
    exact (List.mem_filter.1 this).1
  exact hno r hrf hid

/-- Witness for C10: selecting the record-less id "a9" together with "a1" on
`wFrame` leaves every output identical to selecting "a1" alone. -/
theorem recordless_company_absent_witness :
    ("a9" ∉ uniqueIds (restrictFrame wFrame ["a9", "a1"]).rows) ∧
    restrictFrame wFrame ["a9", "a1"]
      = restrictFrame wFrame (["a9", "a1"].filter (fun c => !(c == "a9"))) :=
  ⟨(recordless_company_absent wFrame ["a9", "a1"] "a9" 2023 (by decide) (by decide)).1,
   (recordless_company_absent wFrame ["a9", "a1"] "a9" 2023 (by decide) (by decide)).2.1⟩

end PatentDashboard
